import Mathlib

/-!
Shallow embedding of the AuraParse client dashboard (src/public/js/app.js).

The client is single-threaded, event-driven DOM glue.  We model the DOM
fields the handlers read and write as a record `Dom`, server responses as
explicit outcome values passed to each handler, and the handlers
themselves as pure functions `Dom → Dom × List Effect`, where `Effect`
records the externally observable actions (HTTP requests, toasts, console
logging, redirects).  Purely presentational details (SVG markup, CSS
class strings, the image preview) are abstracted into the boolean /
enumerated fields that track their observable on-off state.

JavaScript-specific coercions (`x || y` on possibly-undefined values,
string truthiness) are made explicit through the `jsOr*`/`jsTruthyStr`
helpers, so each definition can be diffed line-by-line against app.js.
-/

namespace AuraParse

/-! ### JavaScript value coercions -/

/-- Truthiness of a possibly-undefined JS string: defined and non-empty. -/
def jsTruthyStr : Option String → Bool
  | some s => s ≠ ""
  | none => false

/-- Coercion of a possibly-undefined JS string when assigned to a DOM
value or `localStorage` slot (`undefined` prints as "undefined"). -/
def jsStrOf : Option String → String
  | some s => s
  | none => "undefined"

/-- `a || d` for a possibly-undefined JS string (empty string is falsy). -/
def jsOrStr : Option String → String → String
  | some s, d => if s = "" then d else s
  | none, d => d

/-- `a || d` for a possibly-undefined JS number (`0` is falsy). -/
def jsOrNat : Option Nat → Nat → Nat
  | some n, d => if n = 0 then d else n
  | none, d => d

/-! ### Data model -/

/-- JSON body returned by the key endpoints (`/api/v1/key`,
`/api/v1/signup`, `/api/v1/regenerate-key`).  Absent fields are `none`. -/
structure KeyData where
  masked_key : Option String
  key : Option String
  plan : Option String
  requests_this_month : Option Nat
  limit : Option Nat
deriving DecidableEq

/-- JSON body of `/api/v1/extract` responses. -/
structure ExtractBody where
  detail : Option String
deriving DecidableEq

/-- JSON body of `/api/v1/create-checkout` responses. -/
structure CheckoutBody where
  checkout_url : Option String
  detail : Option String
deriving DecidableEq

/-- JSON body of `/api/v1/create-portal` responses. -/
structure PortalBody where
  url : Option String
  detail : Option String
deriving DecidableEq

/-- Result of `await response.json()`: either parsed data or a thrown
parse error (carrying the exception message). -/
inductive JsonResult (α : Type) where
  | ok (data : α)
  | err (msg : String)
deriving DecidableEq

/-- Outcome of one `fetch` call: either the promise rejected (network
error, message `msg`), or a response arrived with `ok`/`status` and a
body that may or may not parse as JSON. -/
inductive HttpOutcome (α : Type) where
  | netError (msg : String)
  | response (ok : Bool) (status : Nat) (body : JsonResult α)
deriving DecidableEq

/-- A file chosen in the sandbox file input.  `base64Content` stands for
the base64 payload the `FileReader` produces from its bytes. -/
structure SandboxFile where
  size : Nat
  mimeType : String
  base64Content : String
deriving DecidableEq

/-- The slice of `localStorage` the modeled handlers touch. -/
structure LocalStorage where
  receiptApiKey : Option String
deriving DecidableEq

/-! ### Plans (section 5 of app.js) -/

/-- `PLAN_LEVELS = { 'free': 0, 'pro': 1, 'enterprise': 2 }`; lookup of
any other name is `undefined`. -/
def PLAN_LEVELS (plan : String) : Option Nat :=
  if plan = "free" then some 0
  else if plan = "pro" then some 1
  else if plan = "enterprise" then some 2
  else none

/-- The inline per-plan request-limit defaults of line 134:
`{ free: 50, pro: 5000, enterprise: 100000 }[plan]`. -/
def PLAN_LIMIT_DEFAULTS (plan : String) : Option Nat :=
  if plan = "free" then some 50
  else if plan = "pro" then some 5000
  else if plan = "enterprise" then some 100000
  else none

/-- JS `<` on possibly-undefined numbers: any comparison against
`undefined` is false. -/
def jsLt : Option Nat → Option Nat → Bool
  | some a, some b => decide (a < b)
  | _, _ => false

/-- What `updatePlanCards` renders into one plan card: the "Current"
badge with no action button, a "Downgrade" button whose onclick is
`openPortal()`, or an "Upgrade" button whose onclick is
`upgradePlan('<tier>')`. -/
inductive CardAction where
  | current
  | downgrade
  | upgrade (tier : String)
deriving DecidableEq

/-- Body of the `forEach` in `updatePlanCards`: decide the action shown
on the card `planName` given `currentPlan`. -/
def cardActionFor (currentPlan planName : String) : CardAction :=
  if planName = currentPlan then .current
  else if jsLt (PLAN_LEVELS planName) (PLAN_LEVELS currentPlan) then .downgrade
  else .upgrade planName

/-- Rendered state of the three plan cards and the manage-subscription
button. -/
structure PlanCardsView where
  manageBtnVisible : Bool
  freeCard : CardAction
  proCard : CardAction
  enterpriseCard : CardAction
deriving DecidableEq

/-- `updatePlanCards(currentPlan)` (app.js lines 175-234).  The argument
is first defaulted (`currentPlan = currentPlan || 'free'`); the manage
button is shown iff `currentLevel > 0`; each of the three cards gets its
action from the `forEach` body. -/
def updatePlanCards (currentPlan0 : Option String) : PlanCardsView :=
  let currentPlan := jsOrStr currentPlan0 "free"
  { manageBtnVisible := jsLt (some 0) (PLAN_LEVELS currentPlan)
    freeCard := cardActionFor currentPlan "free"
    proCard := cardActionFor currentPlan "pro"
    enterpriseCard := cardActionFor currentPlan "enterprise" }

/-- Card shown for a given plan name in a rendered view. -/
def renderedCard (v : PlanCardsView) (planName : String) : CardAction :=
  if planName = "free" then v.freeCard
  else if planName = "pro" then v.proCard
  else v.enterpriseCard

/-! ### Dashboard state -/

/-- The DOM/browser state the modeled handlers read and write. -/
structure Dom where
  /-- value of the `apiKeyDisplay` input -/
  apiKeyDisplay : String
  /-- true when the key display carries the green/bold "revealed" style,
  false in the neutral masked style -/
  keyRevealedStyle : Bool
  copyBtnVisible : Bool
  keyWarningVisible : Bool
  /-- numeric content of `requestCount` -/
  requestCount : Nat
  /-- numeric content of `requestsLimit` -/
  requestsLimit : Nat
  /-- width of `usageBar` in percent -/
  usageBarWidth : ℚ
  /-- true when `usageBar` carries `bg-red-500`, false for indigo -/
  usageBarRed : Bool
  planCards : PlanCardsView
  rotateModalOpen : Bool
  currentSelectedFile : Option SandboxFile
  extractBtnEnabled : Bool
  localStorage : LocalStorage
deriving DecidableEq

/-- `const plan = data.plan || 'free'` (line 130). -/
def resolvedPlan (data : KeyData) : String :=
  jsOrStr data.plan "free"

/-- `const limit = data.limit || {free:50,pro:5000,enterprise:100000}[plan] || 50`
(line 134). -/
def resolvedLimit (data : KeyData) : Nat :=
  jsOrNat data.limit (jsOrNat (PLAN_LIMIT_DEFAULTS (resolvedPlan data)) 50)

/-- `const percentage = Math.min((used / limit) * 100, 100)` (line 139). -/
def usagePercentage (used limit : Nat) : ℚ :=
  min (((used : ℚ) / (limit : ℚ)) * 100) 100

/-- `updateDashboardUI(data)` (app.js lines 119-147): render the masked
key with neutral styling, hide the copy button and warning, resolve
plan/used/limit, set the usage bar width and its red/indigo color, and
re-render the plan cards. -/
def updateDashboardUI (data : KeyData) (st : Dom) : Dom :=
  let plan := resolvedPlan data
  let used := jsOrNat data.requests_this_month 0
  let limit := resolvedLimit data
  let percentage := usagePercentage used limit
  { st with
    apiKeyDisplay := jsStrOf data.masked_key
    keyRevealedStyle := false
    copyBtnVisible := false
    keyWarningVisible := false
    requestCount := used
    requestsLimit := limit
    usageBarWidth := percentage
    usageBarRed := decide (percentage > 90)
    planCards := updatePlanCards (some plan) }

/-- `revealNewKey(data)` (app.js lines 149-162): show the full key in the
attention style, show the copy button and the save-now warning, reset the
locally displayed stats to zero, and persist the full key in
`localStorage` under `receiptApiKey`. -/
def revealNewKey (data : KeyData) (st : Dom) : Dom :=
  { st with
    apiKeyDisplay := jsStrOf data.key
    keyRevealedStyle := true
    copyBtnVisible := true
    keyWarningVisible := true
    requestCount := 0
    usageBarWidth := 0
    localStorage := { st.localStorage with receiptApiKey := some (jsStrOf data.key) } }

/-! ### Effects and requests -/

/-- HTTP requests the client issues (base URL dropped; body fields that
matter to the spec are carried explicitly).  `postSignup` carries the
JSON body `{ email, plan }` of line 113. -/
inductive Request where
  | getKey
  | postSignup (email plan : String)
  | postRegenerate
  | postCheckout (plan : String)
  | postPortal
  | postExtract (fileData mimeType docType key : String)
deriving DecidableEq

inductive Severity where
  | success
  | error
deriving DecidableEq

/-- Externally observable actions of a handler, in program order.  A
`request` effect is recorded when control reaches the `fetch` call (also
when the fetch then fails). -/
inductive Effect where
  | request (r : Request)
  | toast (msg : String) (sev : Severity)
  /-- `console.error(e)` -/
  | logError
  | focusTestApiKeyInput
  /-- `window.location.href = url` -/
  | navigate (url : String)
  /-- `location.reload()` -/
  | reloadPage
  /-- `auth.signOut()` -/
  | authSignOut
deriving DecidableEq

/-! ### Key lifecycle handlers (section 4 of app.js) -/

/-- `createNewKey(idToken, email)` (app.js lines 109-117): POST
`/api/v1/signup` with body `{ email, plan: 'free' }`; if the parsed body
has a truthy `key`, reveal it.  The function has no try/catch of its own,
so a rejected fetch or a JSON parse failure is re-thrown to the caller
(`JsonResult.err`). -/
def createNewKey (email : String) (signup : HttpOutcome KeyData) (st : Dom) :
    JsonResult Dom × List Effect :=
  match signup with
  | .netError msg => (.err msg, [.request (.postSignup email "free")])
  | .response _ _ (.err msg) => (.err msg, [.request (.postSignup email "free")])
  | .response _ _ (.ok data) =>
    (.ok (if jsTruthyStr data.key then revealNewKey data st else st),
     [.request (.postSignup email "free")])

/-- `getOrCreateAPIKey(user)` (app.js lines 95-107): GET `/api/v1/key`;
on `response.ok && data.masked_key` render the masked dashboard; else on
status 404 call `createNewKey`; any exception escaping the `try` block
(network failure, JSON parse failure, a throw out of `createNewKey`) is
`console.error`-logged; any remaining case falls through silently. -/
def getOrCreateAPIKey (email : String) (keyFetch : HttpOutcome KeyData)
    (signup : HttpOutcome KeyData) (st : Dom) : Dom × List Effect :=
  match keyFetch with
  | .netError _ => (st, [.request .getKey, .logError])
  | .response ok status body =>
    match body with
    | .err _ => (st, [.request .getKey, .logError])
    | .ok data =>
      if ok && jsTruthyStr data.masked_key then
        (updateDashboardUI data st, [.request .getKey])
      else if status = 404 then
        match createNewKey email signup st with
        | (.ok st2, effs) => (st2, .request .getKey :: effs)
        | (.err _, effs) => (st, .request .getKey :: (effs ++ [.logError]))
      else
        (st, [.request .getKey])

/-! ### Billing handlers (section 5 of app.js) -/

/-- `upgradePlan(plan)` (app.js lines 236-249): abort with a toast when
no user is signed in; otherwise POST `/api/v1/create-checkout` and
navigate to `data.checkout_url` when `res.ok` and the URL is truthy, else
toast `data.detail || "Checkout failed"`; any thrown exception is
toasted with its message. -/
def upgradePlan (plan : String) (signedIn : Bool)
    (outcome : HttpOutcome CheckoutBody) (st : Dom) : Dom × List Effect :=
  if !signedIn then (st, [.toast "Please sign in first" .error])
  else
    match outcome with
    | .netError msg => (st, [.request (.postCheckout plan), .toast msg .error])
    | .response _ _ (.err msg) =>
      (st, [.request (.postCheckout plan), .toast msg .error])
    | .response ok _ (.ok data) =>
      if ok && jsTruthyStr data.checkout_url then
        (st, [.request (.postCheckout plan), .navigate (jsStrOf data.checkout_url)])
      else
        (st, [.request (.postCheckout plan),
              .toast (jsOrStr data.detail "Checkout failed") .error])

/-- `openPortal()` (app.js lines 251-262): POST `/api/v1/create-portal`
and navigate to `data.url` when truthy (no `res.ok` check), else toast
`data.detail || "Error opening portal"`; exceptions are toasted.  (The
pre-fetch exception of a null `currentUser` is subsumed by `netError`.) -/
def openPortal (outcome : HttpOutcome PortalBody) (st : Dom) : Dom × List Effect :=
  match outcome with
  | .netError msg => (st, [.toast msg .error])
  | .response _ _ (.err msg) =>
    (st, [.request .postPortal, .toast msg .error])
  | .response _ _ (.ok data) =>
    if jsTruthyStr data.url then
      (st, [.request .postPortal, .navigate (jsStrOf data.url)])
    else
      (st, [.request .postPortal,
            .toast (jsOrStr data.detail "Error opening portal") .error])

/-! ### Sandbox workflow (section 6 of app.js) -/

/-- `handleFileSelection(e)` (app.js lines 270-297): ignore an empty
selection; reject a file over `10 * 1024 * 1024` bytes with an error
toast, leaving every field (notably `currentSelectedFile`) unchanged;
otherwise store the file as the current selection and enable the extract
button (the preview rendering is presentational and abstracted). -/
def handleFileSelection (f : Option SandboxFile) (st : Dom) : Dom × List Effect :=
  match f with
  | none => (st, [])
  | some file =>
    if file.size > 10 * 1024 * 1024 then
      (st, [.toast "File too large. Max 10MB." .error])
    else
      ({ st with currentSelectedFile := some file, extractBtnEnabled := true }, [])

/-- Is `pre` a prefix of the second character list? -/
def isPrefixChars : List Char → List Char → Bool
  | [], _ => true
  | _ :: _, [] => false
  | a :: as, b :: bs => a = b && isPrefixChars as bs

/-- Does the character list contain `needle` as a contiguous run? -/
def containsChars (needle : List Char) : List Char → Bool
  | [] => needle.isEmpty
  | c :: rest => isPrefixChars needle (c :: rest) || containsChars needle rest

/-- `key.includes('••••')` of line 305: does `s` contain the mask
substring? -/
def includesMaskDots (s : String) : Bool :=
  containsChars "••••".toList s.toList

/-- One of the whitespace characters JS `String.prototype.trim` strips. -/
def isJsWhitespace (c : Char) : Bool :=
  c = ' ' || c = '\t' || c = '\n' || c = '\r' || c = '\x0b' || c = '\x0c'

/-- Drop leading JS whitespace. -/
def trimLeadingChars : List Char → List Char
  | [] => []
  | c :: cs => if isJsWhitespace c then trimLeadingChars cs else c :: cs

/-- `s.trim()`: strip whitespace from both ends. -/
def jsTrim (s : String) : String :=
  ⟨(trimLeadingChars (trimLeadingChars s.toList.reverse).reverse)⟩

/-- `performApiCall(base64, mime, docType, key)` (app.js lines 319-360):
POST `/api/v1/extract`; on `res.ok` toast success and optimistically
increment the displayed request count; on a non-ok response toast
`data.detail || "Extraction Failed"`; on any thrown exception (rejected
fetch or JSON parse failure) toast "Network Error".  The `finally` block
re-enables the extract button in every case.  (The rendering of the
response payload into `resultsArea` and the transient
disabled/processing button state are presentational and abstracted.) -/
def performApiCall (base64 mime docType key : String)
    (outcome : HttpOutcome ExtractBody) (st : Dom) : Dom × List Effect :=
  let req := Effect.request (.postExtract base64 mime docType key)
  match outcome with
  | .netError _ =>
    ({ st with extractBtnEnabled := true }, [req, .toast "Network Error" .error])
  | .response _ _ (.err _) =>
    ({ st with extractBtnEnabled := true }, [req, .toast "Network Error" .error])
  | .response ok _ (.ok data) =>
    if ok then
      ({ st with requestCount := st.requestCount + 1, extractBtnEnabled := true },
       [req, .toast "Extraction Successful!" .success])
    else
      ({ st with extractBtnEnabled := true },
       [req, .toast (jsOrStr data.detail "Extraction Failed") .error])

/-- `triggerExtraction()` (app.js lines 299-317): abort with a toast when
no file is selected; read and trim the credential input and read the
document-type input; when the trimmed credential is empty or contains the
mask substring, toast an error and focus the credential input; otherwise
hand the base64 file content, its MIME type, the document type and the
credential to `performApiCall`. -/
def triggerExtraction (docTypeInput testApiKeyInput : String)
    (outcome : HttpOutcome ExtractBody) (st : Dom) : Dom × List Effect :=
  match st.currentSelectedFile with
  | none => (st, [.toast "Select a file first." .error])
  | some file =>
    let key := jsTrim testApiKeyInput
    let docType := docTypeInput
    if key = "" || includesMaskDots key then
      (st, [.toast "Please paste your REAL API Key." .error, .focusTestApiKeyInput])
    else
      performApiCall file.base64Content file.mimeType docType key outcome st

/-! ### Rotation modal and sign-out (sections 3 and 7 of app.js) -/

/-- `rotateKey()` (app.js line 381): open the confirmation modal; nothing
else happens. -/
def rotateKey (st : Dom) : Dom × List Effect :=
  ({ st with rotateModalOpen := true }, [])

/-- `closeRotateModal()` (app.js line 382). -/
def closeRotateModal (st : Dom) : Dom × List Effect :=
  ({ st with rotateModalOpen := false }, [])

/-- `confirmRotate()` (app.js lines 384-397): close the modal, POST
`/api/v1/regenerate-key`, and when the parsed body has a truthy `key`
reveal it and toast success; exceptions are toasted; a body without a
key is silently ignored. -/
def confirmRotate (outcome : HttpOutcome KeyData) (st : Dom) : Dom × List Effect :=
  let st1 := { st with rotateModalOpen := false }
  match outcome with
  | .netError msg => (st1, [.request .postRegenerate, .toast msg .error])
  | .response _ _ (.err msg) =>
    (st1, [.request .postRegenerate, .toast msg .error])
  | .response _ _ (.ok data) =>
    if jsTruthyStr data.key then
      (revealNewKey data st1,
       [.request .postRegenerate, .toast "Key Rotated Successfully" .success])
    else
      (st1, [.request .postRegenerate])

/-- `signOut()` (app.js line 80): sign out of the identity provider,
remove the persisted full-key convenience copy, reload the page. -/
def signOut (st : Dom) : Dom × List Effect :=
  ({ st with localStorage := { st.localStorage with receiptApiKey := none } },
   [.authSignOut, .reloadPage])

/-! ### Event dispatch -/

/-- User/auth events that run the modeled handlers.  Server behavior is
carried inside the event as the outcome each `fetch` would observe. -/
inductive Event where
  /-- a signed-in auth state change reaching `getOrCreateAPIKey`; carries
  the outcome of the key GET and, should the 404 path run, of the signup
  POST -/
  | authKeyFetch (email : String) (keyFetch signup : HttpOutcome KeyData)
  | fileChosen (f : Option SandboxFile)
  | extractClicked (docTypeInput testApiKeyInput : String)
      (outcome : HttpOutcome ExtractBody)
  | upgradeClicked (plan : String) (signedIn : Bool)
      (outcome : HttpOutcome CheckoutBody)
  | portalClicked (outcome : HttpOutcome PortalBody)
  | rotateClicked
  | closeRotateClicked
  | confirmRotateClicked (outcome : HttpOutcome KeyData)
  | signOutClicked

/-- One step of the event loop: dispatch an event to its handler. -/
def step (st : Dom) (e : Event) : Dom × List Effect :=
  match e with
  | .authKeyFetch email kf su => getOrCreateAPIKey email kf su st
  | .fileChosen f => handleFileSelection f st
  | .extractClicked dt k oc => triggerExtraction dt k oc st
  | .upgradeClicked p s oc => upgradePlan p s oc st
  | .portalClicked oc => openPortal oc st
  | .rotateClicked => rotateKey st
  | .closeRotateClicked => closeRotateModal st
  | .confirmRotateClicked oc => confirmRotate oc st
  | .signOutClicked => signOut st

/-- A concrete page-load state, used to instantiate theorems. -/
def initialDom : Dom :=
  { apiKeyDisplay := ""
    keyRevealedStyle := false
    copyBtnVisible := false
    keyWarningVisible := false
    requestCount := 0
    requestsLimit := 50
    usageBarWidth := 0
    usageBarRed := false
    planCards := updatePlanCards (some "free")
    rotateModalOpen := false
    currentSelectedFile := none
    extractBtnEnabled := false
    localStorage := { receiptApiKey := none } }

/-! ## Theorems -/

/-- The per-plan fallback of line 134 is always at least 50. -/
theorem planDefault_ge_50 (p : String) : 50 ≤ jsOrNat (PLAN_LIMIT_DEFAULTS p) 50 := by
  unfold PLAN_LIMIT_DEFAULTS
  split_ifs <;> norm_num [jsOrNat]

/-- Claim C3: in `updateDashboardUI` the displayed request limit is the
server-reported value when supplied (truthy), else the hardcoded per-plan
default (free=50, pro=5000, enterprise=100000) for the user's plan, else
the free-tier default 50; in particular a server limit of 200 yields 200,
an absent limit with plan pro yields 5000, and both absent yields 50. -/
theorem limit_resolution_chain (data : KeyData) (st : Dom) :
    ((updateDashboardUI data st).requestsLimit = resolvedLimit data)
    ∧ (∀ l : Nat, data.limit = some l → l ≠ 0 → resolvedLimit data = l)
    ∧ (data.limit = none → data.plan = some "free" → resolvedLimit data = 50)
    ∧ (data.limit = none → data.plan = some "pro" → resolvedLimit data = 5000)
    ∧ (data.limit = none → data.plan = some "enterprise" → resolvedLimit data = 100000)
    ∧ (data.limit = none → ∀ p, data.plan = some p → PLAN_LIMIT_DEFAULTS p = none →
        resolvedLimit data = 50)
    ∧ (data.limit = none → data.plan = none → resolvedLimit data = 50)
    ∧ (data.limit = some 200 → resolvedLimit data = 200) := by
  refine ⟨rfl, ?_, ?_, ?_, ?_, ?_, ?_, ?_⟩
  · intro l hl hne
    simp [resolvedLimit, jsOrNat, hl, hne]
  · intro h1 h2
    simp [resolvedLimit, resolvedPlan, jsOrNat, jsOrStr, PLAN_LIMIT_DEFAULTS, h1, h2]
  · intro h1 h2
    simp [resolvedLimit, resolvedPlan, jsOrNat, jsOrStr, PLAN_LIMIT_DEFAULTS, h1, h2]
  · intro h1 h2
    simp [resolvedLimit, resolvedPlan, jsOrNat, jsOrStr, PLAN_LIMIT_DEFAULTS, h1, h2]
  · intro h1 p h2 h3
    by_cases hp : p = ""
    · subst hp
      simp [resolvedLimit, resolvedPlan, jsOrNat, jsOrStr, PLAN_LIMIT_DEFAULTS, h1, h2]
    · have hpl : resolvedPlan data = p := by simp [resolvedPlan, jsOrStr, h2, hp]
      simp [resolvedLimit, hpl, h3, jsOrNat, h1]
  · intro h1 h2
    simp [resolvedLimit, resolvedPlan, jsOrNat, jsOrStr, PLAN_LIMIT_DEFAULTS, h1, h2]
  · intro h
    simp [resolvedLimit, jsOrNat, h]

/-- Witness for C3 at the three scenario inputs of the spec. -/
theorem limit_resolution_chain_witness :
    resolvedLimit ⟨none, none, none, none, some 200⟩ = 200
    ∧ resolvedLimit ⟨none, none, some "pro", none, none⟩ = 5000
    ∧ resolvedLimit ⟨none, none, none, none, none⟩ = 50 :=
  ⟨(limit_resolution_chain ⟨none, none, none, none, some 200⟩ initialDom).2.2.2.2.2.2.2 rfl,
   (limit_resolution_chain ⟨none, none, some "pro", none, none⟩ initialDom).2.2.2.1 rfl rfl,
   (limit_resolution_chain ⟨none, none, none, none, none⟩ initialDom).2.2.2.2.2.2.1 rfl rfl⟩

/-- Claim C9: a falsy server limit (absent or 0) is replaced by the
per-plan default, itself at least 50, so the limit resolved by
`updateDashboardUI` is never zero and the `used / limit` division in the
percentage computation never divides by zero. -/
theorem limit_never_zero (data : KeyData) (st : Dom) :
    (updateDashboardUI data st).requestsLimit ≠ 0
    ∧ ((data.limit = none ∨ data.limit = some 0) →
        resolvedLimit data = jsOrNat (PLAN_LIMIT_DEFAULTS (resolvedPlan data)) 50
        ∧ 50 ≤ resolvedLimit data) := by
  have hd := planDefault_ge_50 (resolvedPlan data)
  have hshow : (updateDashboardUI data st).requestsLimit = resolvedLimit data := rfl
  constructor
  · rw [hshow]
    unfold resolvedLimit
    cases hl : data.limit with
    | none =>
      simp only [jsOrNat] at hd ⊢
      omega
    | some l =>
      by_cases hz : l = 0
      · subst hz
        simp only [jsOrNat, if_pos] at hd ⊢
        omega
      · simp [jsOrNat, hz]
  · intro h
    have heq : resolvedLimit data = jsOrNat (PLAN_LIMIT_DEFAULTS (resolvedPlan data)) 50 := by
      rcases h with h | h <;> simp [resolvedLimit, jsOrNat, h]
    exact ⟨heq, heq ▸ hd⟩

/-- Witness for C9 at a concrete falsy limit. -/
theorem limit_never_zero_witness :
    resolvedLimit ⟨none, none, some "enterprise", none, some 0⟩
      = jsOrNat (PLAN_LIMIT_DEFAULTS (resolvedPlan ⟨none, none, some "enterprise", none, some 0⟩)) 50
    ∧ 50 ≤ resolvedLimit ⟨none, none, some "enterprise", none, some 0⟩ :=
  (limit_never_zero ⟨none, none, some "enterprise", none, some 0⟩ initialDom).2 (Or.inr rfl)

/-- Claim C5: for every used ≥ 0 (a natural number) and limit > 0 the
usage-bar percentage equals min(used/limit × 100, 100) and lies in
[0,100], including when used > limit, and `updateDashboardUI` turns the
bar red exactly when the percentage exceeds 90. -/
theorem usage_bar_clamped :
    (∀ used limit : Nat, 0 < limit →
      0 ≤ usagePercentage used limit ∧ usagePercentage used limit ≤ 100
      ∧ usagePercentage used limit = min (((used : ℚ) / (limit : ℚ)) * 100) 100)
    ∧ (∀ (data : KeyData) (st : Dom),
        (updateDashboardUI data st).usageBarRed = true
        ↔ 90 < usagePercentage (jsOrNat data.requests_this_month 0) (resolvedLimit data)) := by
  constructor
  · intro used limit _
    refine ⟨?_, min_le_right _ _, rfl⟩
    unfold usagePercentage
    apply le_min
    · positivity
    · norm_num
  · intro data st
    have h1 : (updateDashboardUI data st).usageBarRed
        = decide (usagePercentage (jsOrNat data.requests_this_month 0) (resolvedLimit data) > 90) :=
      rfl
    rw [h1]
    simp

/-- Witness for C5 with used = 60 > limit = 50 for the clamp and a 98%
usage dashboard for the red threshold. -/
theorem usage_bar_clamped_witness :
    (0 ≤ usagePercentage 60 50 ∧ usagePercentage 60 50 ≤ 100)
    ∧ (updateDashboardUI ⟨some "rk", none, some "free", some 49, some 50⟩ initialDom).usageBarRed
      = true := by
  refine ⟨⟨(usage_bar_clamped.1 60 50 (by norm_num)).1,
           (usage_bar_clamped.1 60 50 (by norm_num)).2.1⟩, ?_⟩
  refine (usage_bar_clamped.2 _ initialDom).mpr ?_
  norm_num [usagePercentage, resolvedLimit, resolvedPlan, jsOrNat, jsOrStr, PLAN_LIMIT_DEFAULTS]

/-- Claim C4: for each current plan p among free, pro and enterprise,
`updatePlanCards` marks exactly one card (the one for p) as current with
no action button, every lower-order card as a downgrade (whose onclick is
`openPortal`), every higher-order card as an upgrade (whose onclick
requests a checkout for that tier), and shows the manage-subscription
control iff p's order exceeds free's order. -/
theorem plan_cards_render (p q : String)
    (hp : p = "free" ∨ p = "pro" ∨ p = "enterprise")
    (hq : q = "free" ∨ q = "pro" ∨ q = "enterprise") :
    (renderedCard (updatePlanCards (some p)) q = CardAction.current ↔ q = p)
    ∧ ((PLAN_LEVELS q).getD 0 < (PLAN_LEVELS p).getD 0 →
        renderedCard (updatePlanCards (some p)) q = CardAction.downgrade)
    ∧ ((PLAN_LEVELS p).getD 0 < (PLAN_LEVELS q).getD 0 →
        renderedCard (updatePlanCards (some p)) q = CardAction.upgrade q)
    ∧ ((updatePlanCards (some p)).manageBtnVisible = true ↔
        (PLAN_LEVELS "free").getD 0 < (PLAN_LEVELS p).getD 0) := by
  rcases hp with rfl | rfl | rfl <;> rcases hq with rfl | rfl | rfl <;> exact (by decide)

/-- Witness for C4 with currentPlan pro: free downgrades, enterprise
upgrades, manage button shown. -/
theorem plan_cards_render_witness :
    (renderedCard (updatePlanCards (some "pro")) "free" = CardAction.downgrade)
    ∧ (renderedCard (updatePlanCards (some "pro")) "enterprise" = CardAction.upgrade "enterprise")
    ∧ ((updatePlanCards (some "pro")).manageBtnVisible = true) := by
  have h1 := plan_cards_render "pro" "free" (Or.inr (Or.inl rfl)) (Or.inl rfl)
  have h2 := plan_cards_render "pro" "enterprise" (Or.inr (Or.inl rfl)) (Or.inr (Or.inr rfl))
  exact ⟨h1.2.1 (by decide), h2.2.2.1 (by decide), h1.2.2.2.mpr (by decide)⟩

/-- Claim C8: a chosen file of 10*1024*1024+1 bytes or more is rejected
with an error toast, no network request, and a completely unchanged state
(so no file becomes the current selection and the runner stays idle),
while a file of exactly 10*1024*1024 bytes becomes the current
selection. -/
theorem file_size_guard :
    (∀ (st : Dom) (file : SandboxFile), 10 * 1024 * 1024 + 1 ≤ file.size →
      handleFileSelection (some file) st
        = (st, [Effect.toast "File too large. Max 10MB." Severity.error]))
    ∧ (∀ (st : Dom) (file : SandboxFile), file.size = 10 * 1024 * 1024 →
      (handleFileSelection (some file) st).1.currentSelectedFile = some file
      ∧ (handleFileSelection (some file) st).2 = []) := by
  constructor
  · intro st file h
    simp only [handleFileSelection]
    rw [if_pos (by omega)]
  · intro st file h
    simp only [handleFileSelection]
    rw [if_neg (by omega)]
    exact ⟨rfl, rfl⟩

/-- Witness for C8 at the two boundary sizes. -/
theorem file_size_guard_witness :
    handleFileSelection (some ⟨10 * 1024 * 1024 + 1, "image/png", "QUJD"⟩) initialDom
      = (initialDom, [Effect.toast "File too large. Max 10MB." Severity.error])
    ∧ (handleFileSelection (some ⟨10 * 1024 * 1024, "image/png", "QUJD"⟩) initialDom).1.currentSelectedFile
      = some ⟨10 * 1024 * 1024, "image/png", "QUJD"⟩ :=
  ⟨file_size_guard.1 initialDom _ (by norm_num),
   (file_size_guard.2 initialDom _ rfl).1⟩

/-- Claim C10: `signOut` always removes the persisted full-key
convenience copy `receiptApiKey` from local storage. -/
theorem signout_clears_key (st : Dom) :
    (signOut st).1.localStorage.receiptApiKey = none := rfl

/-- Claim C6: on every successful key creation or rotation (a parsed
response whose `key` field is present and non-empty) `revealNewKey` runs:
the displayed value becomes the full key, the locally displayed usage
resets to 0 and the bar to 0%, the revealed styling with copy button and
warning shows, and the full key is persisted in local storage under
`receiptApiKey`. -/
theorem reveal_contract (data : KeyData) (st : Dom) (email k : String)
    (ok : Bool) (status : Nat) (hk : data.key = some k) (hne : k ≠ "") :
    (createNewKey email (.response ok status (.ok data)) st).1
      = JsonResult.ok (revealNewKey data st)
    ∧ (confirmRotate (.response ok status (.ok data)) st).1
      = revealNewKey data { st with rotateModalOpen := false }
    ∧ (revealNewKey data st).apiKeyDisplay = k
    ∧ (revealNewKey data st).requestCount = 0
    ∧ (revealNewKey data st).usageBarWidth = 0
    ∧ (revealNewKey data st).keyRevealedStyle = true
    ∧ (revealNewKey data st).copyBtnVisible = true
    ∧ (revealNewKey data st).keyWarningVisible = true
    ∧ (revealNewKey data st).localStorage.receiptApiKey = some k := by
  have ht : jsTruthyStr data.key = true := by simp [jsTruthyStr, hk, hne]
  refine ⟨?_, ?_, ?_, rfl, rfl, rfl, rfl, rfl, ?_⟩
  · simp [createNewKey, ht]
  · simp [confirmRotate, ht]
  · simp [revealNewKey, jsStrOf, hk]
  · simp [revealNewKey, jsStrOf, hk]

/-- Witness for C6 at a concrete signup response carrying a full key. -/
theorem reveal_contract_witness :
    (createNewKey "a@b.c"
        (.response true 200 (.ok ⟨none, some "rk_live_new", none, none, none⟩)) initialDom).1
      = JsonResult.ok (revealNewKey ⟨none, some "rk_live_new", none, none, none⟩ initialDom)
    ∧ (revealNewKey ⟨none, some "rk_live_new", none, none, none⟩ initialDom).apiKeyDisplay
      = "rk_live_new"
    ∧ (revealNewKey ⟨none, some "rk_live_new", none, none, none⟩ initialDom).localStorage.receiptApiKey
      = some "rk_live_new" := by
  have h := reveal_contract ⟨none, some "rk_live_new", none, none, none⟩ initialDom "a@b.c"
    "rk_live_new" true 200 rfl (by decide)
  exact ⟨h.1, h.2.2.1, h.2.2.2.2.2.2.2.2⟩

/-- The extraction POST handler never emits the regenerate request. -/
theorem postRegen_notin_performApiCall (b m d k : String) (oc : HttpOutcome ExtractBody)
    (st : Dom) :
    Effect.request Request.postRegenerate ∉ (performApiCall b m d k oc st).2 := by
  cases oc with
  | netError m2 => simp [performApiCall]
  | response ok s body =>
    cases body with
    | err m2 => simp [performApiCall]
    | ok data => by_cases h : ok = true <;> simp [performApiCall, h]

/-- The key fetch/create handler never emits the regenerate request. -/
theorem postRegen_notin_getOrCreate (email : String) (kf su : HttpOutcome KeyData) (st : Dom) :
    Effect.request Request.postRegenerate ∉ (getOrCreateAPIKey email kf su st).2 := by
  cases kf with
  | netError m => simp [getOrCreateAPIKey]
  | response ok status body =>
    cases body with
    | err m => simp [getOrCreateAPIKey]
    | ok data =>
      simp only [getOrCreateAPIKey]
      by_cases h1 : (ok && jsTruthyStr data.masked_key) = true
      · simp [h1]
      · by_cases h2 : status = 404
        · cases su with
          | netError m => simp [h1, h2, createNewKey]
          | response ok2 s2 b2 =>
            cases b2 with
            | err m => simp [h1, h2, createNewKey]
            | ok d2 => simp [h1, h2, createNewKey]
        · simp [h1, h2]

/-- The extraction trigger never emits the regenerate request. -/
theorem postRegen_notin_trigger (dt k : String) (oc : HttpOutcome ExtractBody) (st : Dom) :
    Effect.request Request.postRegenerate ∉ (triggerExtraction dt k oc st).2 := by
  cases hf : st.currentSelectedFile with
  | none => simp [triggerExtraction, hf]
  | some file =>
    simp only [triggerExtraction, hf]
    split_ifs with h
    · simp
    · exact postRegen_notin_performApiCall _ _ _ _ oc st

/-- Claim C7: the POST to the regenerate-key endpoint is never issued
before the two-step confirmation completes — `rotateKey` only opens the
confirmation modal and emits no effect at all, and among every modeled
event handler only `confirmRotate` (run from the user's confirm click)
ever emits the regenerate request. -/
theorem rotation_two_step :
    (∀ st : Dom, rotateKey st = ({ st with rotateModalOpen := true }, []))
    ∧ (∀ (st : Dom) (e : Event),
        Effect.request Request.postRegenerate ∈ (step st e).2 →
        ∃ oc, e = Event.confirmRotateClicked oc) := by
  constructor
  · intro st; rfl
  · intro st e h
    cases e with
    | confirmRotateClicked oc => exact ⟨oc, rfl⟩
    | authKeyFetch email kf su => exact absurd h (postRegen_notin_getOrCreate email kf su st)
    | fileChosen f =>
      exfalso
      cases f with
      | none => simp [step, handleFileSelection] at h
      | some file =>
        revert h
        simp only [step, handleFileSelection]
        split_ifs <;> simp
    | extractClicked dt k oc => exact absurd h (postRegen_notin_trigger dt k oc st)
    | upgradeClicked p s oc =>
      exfalso
      revert h
      cases s with
      | false => simp [step, upgradePlan]
      | true =>
        cases oc with
        | netError m => simp [step, upgradePlan]
        | response ok s2 body =>
          cases body with
          | err m => simp [step, upgradePlan]
          | ok data =>
            simp only [step, upgradePlan]
            split_ifs <;> simp
    | portalClicked oc =>
      exfalso
      revert h
      cases oc with
      | netError m => simp [step, openPortal]
      | response ok s2 body =>
        cases body with
        | err m => simp [step, openPortal]
        | ok data =>
          simp only [step, openPortal]
          split_ifs <;> simp
    | rotateClicked => exact absurd h (by simp [step, rotateKey])
    | closeRotateClicked => exact absurd h (by simp [step, closeRotateModal])
    | signOutClicked => exact absurd h (by simp [step, signOut])

/-- Witness for C7: the modal opens without effects, and the concrete
confirm event is correctly identified from its emitted request. -/
theorem rotation_two_step_witness :
    rotateKey initialDom = ({ initialDom with rotateModalOpen := true }, [])
    ∧ ∃ oc, Event.confirmRotateClicked (HttpOutcome.netError "offline")
        = Event.confirmRotateClicked oc := by
  refine ⟨rotation_two_step.1 initialDom,
    rotation_two_step.2 initialDom
      (Event.confirmRotateClicked (HttpOutcome.netError "offline")) ?_⟩
  simp [step, confirmRotate]

/-- Counterexample to C1 as stated: a failed key fetch with status 500
and a well-formed JSON body is neither rendered nor a 404, and the claim
says any such failure is logged — but the handler emits only the GET,
with no `console.error`. -/
theorem key_fetch_500_unlogged :
    Effect.logError ∉
      (getOrCreateAPIKey "user@example.com"
        (HttpOutcome.response false 500 (JsonResult.ok ⟨none, none, none, none, none⟩))
        (HttpOutcome.netError "unused") initialDom).2
    ∧ (getOrCreateAPIKey "user@example.com"
        (HttpOutcome.response false 500 (JsonResult.ok ⟨none, none, none, none, none⟩))
        (HttpOutcome.netError "unused") initialDom).2
      = [Effect.request Request.getKey] := by
  exact ⟨by decide, by decide⟩

/-- Claim C1 (amended): in `getOrCreateAPIKey`, an ok response whose
parsed body carries a truthy masked_key renders the masked dashboard; a
parsed response that is not (ok with masked key) and has status 404
issues the signup POST with plan free; a rejected fetch or a JSON parse
failure is logged and leaves the state unchanged; every other parsed
failure is silently ignored — no log, no state change, no key creation —
leaving the dashboard pending with no destructive fallback. -/
theorem key_fetch_dispatch (email : String) (kf su : HttpOutcome KeyData) (st : Dom) :
    (∀ ok status data, kf = HttpOutcome.response ok status (JsonResult.ok data) →
        (ok && jsTruthyStr data.masked_key) = true →
        getOrCreateAPIKey email kf su st
          = (updateDashboardUI data st, [Effect.request Request.getKey]))
    ∧ (∀ ok status data, kf = HttpOutcome.response ok status (JsonResult.ok data) →
        (ok && jsTruthyStr data.masked_key) = false → status = 404 →
        Effect.request (Request.postSignup email "free")
          ∈ (getOrCreateAPIKey email kf su st).2)
    ∧ (∀ msg, kf = HttpOutcome.netError msg →
        getOrCreateAPIKey email kf su st
          = (st, [Effect.request Request.getKey, Effect.logError]))
    ∧ (∀ ok status msg, kf = HttpOutcome.response ok status (JsonResult.err msg) →
        getOrCreateAPIKey email kf su st
          = (st, [Effect.request Request.getKey, Effect.logError]))
    ∧ (∀ ok status data, kf = HttpOutcome.response ok status (JsonResult.ok data) →
        (ok && jsTruthyStr data.masked_key) = false → status ≠ 404 →
        getOrCreateAPIKey email kf su st = (st, [Effect.request Request.getKey])) := by
  refine ⟨?_, ?_, ?_, ?_, ?_⟩
  · intro ok status data hkf h
    subst hkf
    simp [getOrCreateAPIKey, h]
  · intro ok status data hkf h h404
    subst hkf
    subst h404
    cases su with
    | netError m => simp [getOrCreateAPIKey, h, createNewKey]
    | response ok2 s2 b2 =>
      cases b2 with
      | err m => simp [getOrCreateAPIKey, h, createNewKey]
      | ok d2 => simp [getOrCreateAPIKey, h, createNewKey]
  · intro msg hkf
    subst hkf
    rfl
  · intro ok status msg hkf
    subst hkf
    rfl
  · intro ok status data hkf h h404
    subst hkf
    simp [getOrCreateAPIKey, h, h404]

/-- Witness for C1 at a concrete 404: the signup POST with plan free is
issued. -/
theorem key_fetch_dispatch_witness :
    Effect.request (Request.postSignup "user@example.com" "free")
      ∈ (getOrCreateAPIKey "user@example.com"
          (HttpOutcome.response false 404 (JsonResult.ok ⟨none, none, none, none, none⟩))
          (HttpOutcome.response true 200 (JsonResult.ok ⟨none, some "rk_new", none, none, none⟩))
          initialDom).2 :=
  (key_fetch_dispatch "user@example.com" _ _ initialDom).2.1 false 404
    ⟨none, none, none, none, none⟩ rfl (by decide) rfl

/-- Counterexample to C2 as stated: with a file selected, a non-empty
non-placeholder credential and an empty document-type selection, the
extraction network call is still issued — the code never checks that a
document type is selected. -/
theorem extraction_no_docType_check :
    Effect.request (Request.postExtract "QUJD" "image/png" "" "rk_live_123")
      ∈ (triggerExtraction "" "rk_live_123" (HttpOutcome.netError "offline")
          { initialDom with currentSelectedFile := some ⟨4, "image/png", "QUJD"⟩ }).2 := by
  decide

/-- Claim C2 (amended): with a file selected, the submission proceeds to
the network call in `performApiCall` iff the trimmed credential is
non-empty and does not contain the mask substring (the masked display
value is rejected); the document type is read but never validated.  On a
rejected credential the handler returns the state unchanged — the file
selection intact — with only an error toast and a focus of the
credential field, so no network call is issued. -/
theorem extraction_credential_guard (docTypeInput testApiKeyInput : String)
    (oc : HttpOutcome ExtractBody) (st : Dom) (file : SandboxFile)
    (hf : st.currentSelectedFile = some file) :
    ((jsTrim testApiKeyInput = "" ∨ includesMaskDots (jsTrim testApiKeyInput) = true) →
      triggerExtraction docTypeInput testApiKeyInput oc st
        = (st, [Effect.toast "Please paste your REAL API Key." Severity.error,
                Effect.focusTestApiKeyInput]))
    ∧ (jsTrim testApiKeyInput ≠ "" → includesMaskDots (jsTrim testApiKeyInput) = false →
      triggerExtraction docTypeInput testApiKeyInput oc st
        = performApiCall file.base64Content file.mimeType docTypeInput
            (jsTrim testApiKeyInput) oc st) := by
  constructor
  · intro h
    simp only [triggerExtraction, hf]
    split_ifs with hc
    · rfl
    · exfalso
      apply hc
      rcases h with h | h <;> simp [h]
  · intro h1 h2
    simp only [triggerExtraction, hf]
    split_ifs with hc
    · exfalso
      rw [Bool.or_eq_true] at hc
      rcases hc with hc | hc
      · exact h1 (of_decide_eq_true hc)
      · rw [h2] at hc
        exact Bool.false_ne_true hc
    · rfl

/-- Witness for C2: the masked display value is rejected locally with no
network call and an unchanged state. -/
theorem extraction_credential_guard_witness :
    triggerExtraction "receipt" "rk_••••abcd" (HttpOutcome.netError "offline")
      { initialDom with currentSelectedFile := some ⟨4, "image/png", "QUJD"⟩ }
      = ({ initialDom with currentSelectedFile := some ⟨4, "image/png", "QUJD"⟩ },
         [Effect.toast "Please paste your REAL API Key." Severity.error,
          Effect.focusTestApiKeyInput]) :=
  (extraction_credential_guard "receipt" "rk_••••abcd" (HttpOutcome.netError "offline")
    _ ⟨4, "image/png", "QUJD"⟩ rfl).1 (Or.inr (by decide))

end AuraParse
